import Mathlib

/-!
# RecastDemo `Sample.h`: area tags, query filter and tool-state registry

A shallow embedding of `RecastDemo/Include/Sample.h`.

* `unsigned int` values (area tags, filter masks) are natural numbers below `2 ^ 32`;
  the C operators `&`, `|` are `&&&`, `|||` on `Nat`, and `~` on an `unsigned int` is `not32`.
* `int` values (tool kinds used as array subscripts) are `Int`.
* Pointers are `Option Nat`: `none` is the null pointer, `some n` the object with identity `n`.
-/

namespace RecastDemo

/-! ## `enum SamplePolyAreas` -/

/-- Enumerator `SAMPLE_POLYAREA_TYPE_MASK = 0x00ffffff`. -/
def SAMPLE_POLYAREA_TYPE_MASK : Nat := 0x00ffffff
/-- Enumerator `SAMPLE_POLYAREA_TYPE_GROUND = 0x01`. -/
def SAMPLE_POLYAREA_TYPE_GROUND : Nat := 0x01
/-- Enumerator `SAMPLE_POLYAREA_TYPE_WATER = 0x02`. -/
def SAMPLE_POLYAREA_TYPE_WATER : Nat := 0x02
/-- Enumerator `SAMPLE_POLYAREA_TYPE_ROAD = 0x03`. -/
def SAMPLE_POLYAREA_TYPE_ROAD : Nat := 0x03
/-- Enumerator `SAMPLE_POLYAREA_TYPE_GRASS = 0x04`. -/
def SAMPLE_POLYAREA_TYPE_GRASS : Nat := 0x04
/-- Enumerator `SAMPLE_POLYAREA_FLAG_DOOR = 0x01000000`. -/
def SAMPLE_POLYAREA_FLAG_DOOR : Nat := 0x01000000
/-- Enumerator `SAMPLE_POLYAREA_FLAG_JUMP = 0x02000000`. -/
def SAMPLE_POLYAREA_FLAG_JUMP : Nat := 0x02000000
/-- Enumerator `SAMPLE_POLYAREA_FLAG_DISABLED = 0x04000000`. -/
def SAMPLE_POLYAREA_FLAG_DISABLED : Nat := 0x04000000

/-- The C operator `~` on a 32-bit `unsigned int`. -/
def not32 (x : Nat) : Nat := (2 ^ 32 - 1) - x % 2 ^ 32

/-- The four named area types of `SamplePolyAreas`, in declaration order. -/
def namedAreaTypes : List Nat :=
  [SAMPLE_POLYAREA_TYPE_GROUND, SAMPLE_POLYAREA_TYPE_WATER,
   SAMPLE_POLYAREA_TYPE_ROAD, SAMPLE_POLYAREA_TYPE_GRASS]

/-- The three named flags of `SamplePolyAreas`, in declaration order. -/
def namedAreaFlags : List Nat :=
  [SAMPLE_POLYAREA_FLAG_DOOR, SAMPLE_POLYAREA_FLAG_JUMP, SAMPLE_POLYAREA_FLAG_DISABLED]

/-- The C expression `f1 | f2 | ... | fn` (the empty combination is `0`). -/
def orAll : List Nat → Nat
  | [] => 0
  | f :: fs => f ||| orAll fs


/-! ## `class SampleQueryFilter` -/

/-- The data members `SampleQueryFilter` declares itself: two `unsigned int` masks.
The members inherited from `dtQueryFilter` are declared outside `Sample.h`. -/
structure SampleQueryFilter where
  m_includeFlags : Nat
  m_excludeFlags : Nat
deriving DecidableEq

/-- Member function `unsigned int getIncludeFlags() const { return m_includeFlags; }`:
the returned value together with the object after the call. -/
def getIncludeFlags (self : SampleQueryFilter) : Nat × SampleQueryFilter :=
  (self.m_includeFlags, self)

/-- Member function `void setIncludeFlags(unsigned int flags) { m_includeFlags = flags; }`. -/
def setIncludeFlags (self : SampleQueryFilter) (flags : Nat) : SampleQueryFilter :=
  { self with m_includeFlags := flags }

/-- Member function `unsigned int getExcludeFlags() const { return m_excludeFlags; }`:
the returned value together with the object after the call. -/
def getExcludeFlags (self : SampleQueryFilter) : Nat × SampleQueryFilter :=
  (self.m_excludeFlags, self)

/-- Member function `void setExcludeFlags(unsigned int flags) { m_excludeFlags = flags; }`. -/
def setExcludeFlags (self : SampleQueryFilter) (flags : Nat) : SampleQueryFilter :=
  { self with m_excludeFlags := flags }

/-- Modelled from the spec: the header has no extraction function; the spec's
contract is `typeOf(tag) = tag & TYPE_MASK`, with the mask of `SamplePolyAreas`. -/
def typeOf (tag : Nat) : Nat := tag &&& SAMPLE_POLYAREA_TYPE_MASK

/-- Modelled from the spec: `SampleQueryFilter::passFilter` is only declared in `Sample.h`,
its body is missing. The spec: "admits the surface iff `typeOf(tag)` has at least one bit
set in the include-mask AND has no bit set in the exclude-mask", the tag being the area of
the polygon handed to the filter. -/
def passFilter (self : SampleQueryFilter) (tag : Nat) : Bool :=
  (typeOf tag &&& self.m_includeFlags != 0) && (typeOf tag &&& self.m_excludeFlags == 0)

/-! ## `enum SampleToolType` -/

/-- Enumerator `TOOL_NONE = 0`. -/
def TOOL_NONE : Int := 0
/-- Enumerator `TOOL_TILE_EDIT` (previous enumerator plus one). -/
def TOOL_TILE_EDIT : Int := TOOL_NONE + 1
/-- Enumerator `TOOL_TILE_HIGHLIGHT`. -/
def TOOL_TILE_HIGHLIGHT : Int := TOOL_TILE_EDIT + 1
/-- Enumerator `TOOL_TEMP_OBSTACLE`. -/
def TOOL_TEMP_OBSTACLE : Int := TOOL_TILE_HIGHLIGHT + 1
/-- Enumerator `TOOL_NAVMESH_TESTER`. -/
def TOOL_NAVMESH_TESTER : Int := TOOL_TEMP_OBSTACLE + 1
/-- Enumerator `TOOL_NAVMESH_PRUNE`. -/
def TOOL_NAVMESH_PRUNE : Int := TOOL_NAVMESH_TESTER + 1
/-- Enumerator `TOOL_OFFMESH_CONNECTION`. -/
def TOOL_OFFMESH_CONNECTION : Int := TOOL_NAVMESH_PRUNE + 1
/-- Enumerator `TOOL_CONVEX_VOLUME`. -/
def TOOL_CONVEX_VOLUME : Int := TOOL_OFFMESH_CONNECTION + 1
/-- Enumerator `TOOL_CROWD`. -/
def TOOL_CROWD : Int := TOOL_CONVEX_VOLUME + 1
/-- Enumerator `MAX_TOOLS`, the last one of `SampleToolType`. -/
def MAX_TOOLS : Int := TOOL_CROWD + 1

/-- The tool kinds of `SampleToolType`: every enumerator before `MAX_TOOLS`, in
declaration order. -/
def toolKinds : List Int :=
  [TOOL_NONE, TOOL_TILE_EDIT, TOOL_TILE_HIGHLIGHT, TOOL_TEMP_OBSTACLE, TOOL_NAVMESH_TESTER,
   TOOL_NAVMESH_PRUNE, TOOL_OFFMESH_CONNECTION, TOOL_CONVEX_VOLUME, TOOL_CROWD]

/-! ## `class Sample` -/

/-- A pointer: `none` is the null pointer, `some n` points to the object with identity `n`. -/
abbrev Ptr := Option Nat

/-- A C `float`, kept as its 32-bit pattern; the header only stores and passes such values. -/
abbrev CFloat := Nat

/-- Class `SampleDebugDraw` declares no data member of its own (its base `DebugDrawGL` is
declared outside `Sample.h`). -/
structure SampleDebugDraw where
deriving DecidableEq

/-- The data members of `Sample`, in declaration order.

`m_toolStates` holds the cells of the array `SampleToolState* m_toolStates[MAX_TOOLS]`,
cell `i` for `0 <= i < MAX_TOOLS`. The subscript expression `m_toolStates[i]` addresses the
memory `i` pointers away from the start of the array, whatever `i` is. The pointers `m_tool`
and `m_ctx` are the members declared directly before and directly after the array, so the
cell addressed by `m_toolStates[-1]` is `m_tool` and the one addressed by
`m_toolStates[MAX_TOOLS]` is `m_ctx`. At a subscript further out the header does not say
what the memory holds; nothing is proved about those. -/
structure Sample where
  m_geom : Ptr
  m_navMesh : Ptr
  m_navQuery : Ptr
  m_crowd : Ptr
  m_navMeshDrawFlags : Nat
  m_cellSize : CFloat
  m_cellHeight : CFloat
  m_agentHeight : CFloat
  m_agentRadius : CFloat
  m_agentMaxClimb : CFloat
  m_agentMaxSlope : CFloat
  m_regionMinSize : CFloat
  m_regionMergeSize : CFloat
  m_edgeMaxLen : CFloat
  m_edgeMaxError : CFloat
  m_vertsPerPoly : CFloat
  m_detailSampleDist : CFloat
  m_detailSampleMaxError : CFloat
  m_partitionType : Int
  m_filterLowHangingObstacles : Bool
  m_filterLedgeSpans : Bool
  m_filterWalkableLowHeightSpans : Bool
  m_tool : Ptr
  m_toolStates : Int → Ptr
  m_ctx : Ptr
  m_dd : SampleDebugDraw

/-- Member function `SampleToolState* getToolState(int type) { return m_toolStates[type]; }`:
the returned pointer together with the object after the call. The subscript is applied as
written, with no check. -/
def getToolState (self : Sample) (type : Int) : Ptr × Sample :=
  (if type = -1 then self.m_tool
   else if type = MAX_TOOLS then self.m_ctx
   else self.m_toolStates type, self)

/-- Member function
`void setToolState(int type, SampleToolState* s) { m_toolStates[type] = s; }`.
The subscript is applied as written, with no check. -/
def setToolState (self : Sample) (type : Int) (s : Ptr) : Sample :=
  if type = -1 then { self with m_tool := s }
  else if type = MAX_TOOLS then { self with m_ctx := s }
  else { self with m_toolStates := fun i => if i = type then s else self.m_toolStates i }

/-- A virtual member function of `SampleToolState` that the registry calls on a state. -/
inductive ToolStateCall where
  | handleUpdate (dt : CFloat)
  | handleRender
deriving DecidableEq

/-- One call made on a registered tool state: which member function, through which slot,
on which state object. -/
structure Invocation where
  call : ToolStateCall
  kind : Int
  state : Nat
deriving DecidableEq

/-- Modelled from the spec: what the registry does at one slot, "skipping absent slots,
invoking the corresponding ToolState operation". -/
def visitSlot (self : Sample) (call : ToolStateCall) (i : Int) : List Invocation :=
  match self.m_toolStates i with
  | some state => [⟨call, i, state⟩]
  | none => []

/-- Modelled from the spec: the bodies of the `...ToolStates` member functions are missing
from `Sample.h`. The spec: "iterate every slot in kind order, skipping absent slots,
invoking the corresponding ToolState operation. Order across kinds is fixed (ascending kind
ordinal)". `visitSlots self call n i` visits the `n` slots `i, i + 1, ...` and returns the
calls made, in the order they are made. -/
def visitSlots (self : Sample) (call : ToolStateCall) : Nat → Int → List Invocation
  | 0, _ => []
  | n + 1, i => visitSlot self call i ++ visitSlots self call n (i + 1)

/-- Modelled from the spec: `void Sample::updateToolStates(const float dt)` is only declared
in `Sample.h`; the spec's `updateAll(deltaTime)` visits all `MAX_TOOLS` slots from slot 0. -/
def updateToolStates (self : Sample) (dt : CFloat) : List Invocation :=
  visitSlots self (ToolStateCall.handleUpdate dt) MAX_TOOLS.toNat 0

/-- Modelled from the spec: `void Sample::renderToolStates()` is only declared in
`Sample.h`; the spec's `renderAll()` visits all `MAX_TOOLS` slots from slot 0. -/
def renderToolStates (self : Sample) : List Invocation :=
  visitSlots self ToolStateCall.handleRender MAX_TOOLS.toNat 0

/-- A `Sample` with every pointer null, every number zero and every tool-state cell empty. -/
def emptySample : Sample where
  m_geom := none
  m_navMesh := none
  m_navQuery := none
  m_crowd := none
  m_navMeshDrawFlags := 0
  m_cellSize := 0
  m_cellHeight := 0
  m_agentHeight := 0
  m_agentRadius := 0
  m_agentMaxClimb := 0
  m_agentMaxSlope := 0
  m_regionMinSize := 0
  m_regionMergeSize := 0
  m_edgeMaxLen := 0
  m_edgeMaxError := 0
  m_vertsPerPoly := 0
  m_detailSampleDist := 0
  m_detailSampleMaxError := 0
  m_partitionType := 0
  m_filterLowHangingObstacles := false
  m_filterLedgeSpans := false
  m_filterWalkableLowHeightSpans := false
  m_tool := none
  m_toolStates := fun _ => none
  m_ctx := none
  m_dd := {}

/-! ## Bit-level facts about the mask -/

theorem mask_eq_two_pow : SAMPLE_POLYAREA_TYPE_MASK = 2 ^ 24 - 1 := by decide

theorem not32_mask : not32 SAMPLE_POLYAREA_TYPE_MASK = 0xff000000 := by decide

theorem mask_or_not32_mask :
    SAMPLE_POLYAREA_TYPE_MASK ||| not32 SAMPLE_POLYAREA_TYPE_MASK = 2 ^ 32 - 1 := by decide

theorem mask_and_not32_mask :
    SAMPLE_POLYAREA_TYPE_MASK &&& not32 SAMPLE_POLYAREA_TYPE_MASK = 0 := by decide

/-- Splitting a 32-bit value by the mask and its complement loses nothing. -/
theorem split_recombine (t : Nat) (ht : t < 2 ^ 32) :
    (t &&& SAMPLE_POLYAREA_TYPE_MASK) ||| (t &&& not32 SAMPLE_POLYAREA_TYPE_MASK) = t := by
  rw [← Nat.and_or_distrib_left, mask_or_not32_mask]
  exact Nat.and_pow_two_sub_one_of_lt_two_pow ht

/-- A value inside the mask has no bit in the complement of the mask. -/
theorem within_mask_and_not32 (a : Nat) (ha : a &&& SAMPLE_POLYAREA_TYPE_MASK = a) :
    a &&& not32 SAMPLE_POLYAREA_TYPE_MASK = 0 := by
  rw [← ha, Nat.and_assoc, mask_and_not32_mask, Nat.and_zero]

/-- A 32-bit value with no bit inside the mask lies wholly in the complement. -/
theorem outside_mask_and_not32 (f : Nat) (hf : f < 2 ^ 32)
    (h0 : f &&& SAMPLE_POLYAREA_TYPE_MASK = 0) :
    f &&& not32 SAMPLE_POLYAREA_TYPE_MASK = f := by
  have h := split_recombine f hf
  rw [h0, Nat.zero_or] at h
  exact h

/-- Type extraction after combining a type inside the mask with flags outside it. -/
theorem type_of_combine (a f : Nat) (ha : a &&& SAMPLE_POLYAREA_TYPE_MASK = a)
    (h0 : f &&& SAMPLE_POLYAREA_TYPE_MASK = 0) :
    (a ||| f) &&& SAMPLE_POLYAREA_TYPE_MASK = a := by
  rw [Nat.and_distrib_right, ha, h0, Nat.or_zero]

/-- Flag extraction after combining a type inside the mask with 32-bit flags outside it. -/
theorem flags_of_combine (a f : Nat) (ha : a &&& SAMPLE_POLYAREA_TYPE_MASK = a)
    (hf : f < 2 ^ 32) (h0 : f &&& SAMPLE_POLYAREA_TYPE_MASK = 0) :
    (a ||| f) &&& not32 SAMPLE_POLYAREA_TYPE_MASK = f := by
  rw [Nat.and_distrib_right, within_mask_and_not32 a ha, outside_mask_and_not32 f hf h0,
    Nat.zero_or]

/-- An OR-combination of named flags is a 32-bit value with no bit inside the mask. -/
theorem orAll_named_flags (fs : List Nat) (hfs : ∀ x ∈ fs, x ∈ namedAreaFlags) :
    orAll fs < 2 ^ 32 ∧ orAll fs &&& SAMPLE_POLYAREA_TYPE_MASK = 0 := by
  induction fs with
  | nil => exact ⟨by decide, by decide⟩
  | cons x xs ih =>
    have hx : x ∈ namedAreaFlags := hfs x (List.mem_cons_self x xs)
    have hxs := ih (fun y hy => hfs y (List.mem_cons_of_mem x hy))
    have hx32 : x < 2 ^ 32 ∧ x &&& SAMPLE_POLYAREA_TYPE_MASK = 0 := by
      simp only [namedAreaFlags, List.mem_cons, List.mem_singleton, List.not_mem_nil,
        or_false] at hx
      rcases hx with rfl | rfl | rfl <;> exact ⟨by decide, by decide⟩
    refine ⟨Nat.or_lt_two_pow hx32.1 hxs.1, ?_⟩
    show (x ||| orAll xs) &&& SAMPLE_POLYAREA_TYPE_MASK = 0
    rw [Nat.and_distrib_right, hx32.2, hxs.2, Nat.zero_or]

/-! ## Bit-level facts about the filter rule -/

/-- Two numbers have a common bit exactly when their `&` is non-zero. -/
theorem and_ne_zero_iff_common_bit (x y : Nat) :
    x &&& y ≠ 0 ↔ ∃ i, x.testBit i = true ∧ y.testBit i = true := by
  constructor
  · intro h
    obtain ⟨i, hi⟩ := Nat.ne_zero_implies_bit_true h
    rw [Nat.testBit_and, Bool.and_eq_true] at hi
    exact ⟨i, hi⟩
  · rintro ⟨i, hx, hy⟩ h
    have hi : (x &&& y).testBit i = true := by
      rw [Nat.testBit_and, hx, hy]; rfl
    rw [h, Nat.zero_testBit] at hi
    exact Bool.false_ne_true hi

/-- The filter rule unfolded to a proposition. -/
theorem passFilter_eq_true_iff (self : SampleQueryFilter) (tag : Nat) :
    passFilter self tag = true ↔
      typeOf tag &&& self.m_includeFlags ≠ 0 ∧ typeOf tag &&& self.m_excludeFlags = 0 := by
  simp [passFilter]

/-- The filter looks at the tag only through its type part. -/
theorem passFilter_congr_type (self : SampleQueryFilter) (t u : Nat)
    (h : typeOf t = typeOf u) : passFilter self t = passFilter self u := by
  simp only [passFilter, h]

/-- OR-ing bits outside the mask into a tag leaves its type part as it was. -/
theorem typeOf_or_outside (tag f : Nat) (hf : f &&& SAMPLE_POLYAREA_TYPE_MASK = 0) :
    typeOf (tag ||| f) = typeOf tag := by
  simp only [typeOf]
  rw [Nat.and_distrib_right, hf, Nat.or_zero]

/-! ## Facts about the slot loop -/

/-- The slot loop as a list expression: the slots `i, i + 1, ..., i + n - 1` in this order,
each contributing one call when it is occupied. -/
theorem visitSlots_eq_filterMap (self : Sample) (call : ToolStateCall) (n : Nat) (i : Int) :
    visitSlots self call n i =
      ((List.range n).map (fun j : Nat => i + (j : Int))).filterMap
        (fun k => (self.m_toolStates k).map (fun st => Invocation.mk call k st)) := by
  induction n generalizing i with
  | zero => rfl
  | succ n ih =>
    rw [visitSlots, ih (i + 1), List.range_succ_eq_map, List.map_cons, List.map_map]
    have hmap : (List.map ((fun j : Nat => i + (j : Int)) ∘ Nat.succ) (List.range n)) =
        List.map (fun j : Nat => i + 1 + (j : Int)) (List.range n) := by
      apply List.map_congr_left
      intro j _
      simp only [Function.comp, Nat.succ_eq_add_one, Nat.cast_add, Nat.cast_one]
      omega
    rw [hmap]
    simp only [Nat.cast_zero, Int.add_zero, visitSlot]
    cases hs : self.m_toolStates i <;> simp [List.filterMap_cons, hs]

/-- The tool kinds are the subscripts `0, 1, ..., MAX_TOOLS - 1` in this order. -/
theorem toolKinds_eq_range :
    toolKinds = (List.range MAX_TOOLS.toNat).map (fun j : Nat => (0 : Int) + (j : Int)) := by
  decide

/-- The kinds of the calls made over a list of slots are the occupied slots of the list. -/
theorem kinds_of_filterMap (cells : Int → Ptr) (call : ToolStateCall) (l : List Int) :
    (l.filterMap (fun k => (cells k).map (fun st => Invocation.mk call k st))).map
        Invocation.kind = l.filter (fun k => (cells k).isSome) := by
  induction l with
  | nil => rfl
  | cons k ks ih =>
    cases hk : cells k <;> simp [List.filterMap_cons, List.filter_cons, hk, ih]

/-- Every call made by the slot loop is the requested call on the occupant of its slot. -/
theorem visitSlots_mem (self : Sample) (call : ToolStateCall) (n : Nat) (i : Int)
    (inv : Invocation) (h : inv ∈ visitSlots self call n i) :
    inv.call = call ∧ self.m_toolStates inv.kind = some inv.state := by
  rw [visitSlots_eq_filterMap, List.mem_filterMap] at h
  obtain ⟨k, _, hk⟩ := h
  cases hs : self.m_toolStates k with
  | none => rw [hs] at hk; cases hk
  | some st =>
    rw [hs] at hk
    simp only [Option.map_some', Option.some.injEq] at hk
    subst hk
    exact ⟨rfl, hs⟩

/-- The kinds visited by a full pass over the registry. -/
theorem visitSlots_all_kinds (self : Sample) (call : ToolStateCall) :
    (visitSlots self call MAX_TOOLS.toNat 0).map Invocation.kind =
      toolKinds.filter (fun k => (self.m_toolStates k).isSome) := by
  rw [visitSlots_eq_filterMap, ← toolKinds_eq_range, kinds_of_filterMap]

/-- The occupied kinds, listed in the order of `toolKinds`, are strictly ascending. -/
theorem occupied_kinds_ascending (cells : Int → Ptr) :
    (toolKinds.filter (fun k => (cells k).isSome)).Pairwise (fun a b => a < b) :=
  List.Pairwise.sublist (List.filter_sublist toolKinds) (by decide)

/-- A subscript belongs to `toolKinds` exactly when it is in the range of the array. -/
theorem mem_toolKinds_iff (k : Int) : k ∈ toolKinds ↔ 0 ≤ k ∧ k < MAX_TOOLS := by
  constructor
  · intro h
    have hall : ∀ x ∈ toolKinds, 0 ≤ x ∧ x < MAX_TOOLS := by decide
    exact hall k h
  · rintro ⟨h0, h9⟩
    have h9' : k < 9 := h9
    interval_cases k <;> decide

/-- In a full pass each in-range occupied slot is visited once and no other slot at all. -/
theorem visitSlots_count (self : Sample) (call : ToolStateCall) (k : Int) :
    ((visitSlots self call MAX_TOOLS.toNat 0).map Invocation.kind).count k =
      if 0 ≤ k ∧ k < MAX_TOOLS ∧ (self.m_toolStates k).isSome = true then 1 else 0 := by
  rw [visitSlots_all_kinds]
  have hnd : (toolKinds.filter (fun k => (self.m_toolStates k).isSome)).Nodup :=
    List.Nodup.filter _ (by decide)
  rw [List.count_eq_of_nodup hnd]
  simp only [List.mem_filter, mem_toolKinds_iff, and_assoc]

/-! ## Area tags -/

/-- C1: for every 32-bit tag `t`, the type part `t & SAMPLE_POLYAREA_TYPE_MASK` OR-ed with
the flag part `t & ~SAMPLE_POLYAREA_TYPE_MASK` (32-bit complement) gives back `t`. -/
theorem area_tag_split_roundtrip (t : Nat) (ht : t < 2 ^ 32) :
    (t &&& SAMPLE_POLYAREA_TYPE_MASK) ||| (t &&& not32 SAMPLE_POLYAREA_TYPE_MASK) = t :=
  split_recombine t ht

theorem area_tag_split_roundtrip_witness :
    (0x04000003 : Nat) < 2 ^ 32 ∧
    ((0x04000003 : Nat) &&& SAMPLE_POLYAREA_TYPE_MASK) |||
      ((0x04000003 : Nat) &&& not32 SAMPLE_POLYAREA_TYPE_MASK) = 0x04000003 :=
  ⟨by decide, area_tag_split_roundtrip 0x04000003 (by decide)⟩

/-- C2: for values `a ≠ b` inside the type mask and a 32-bit flag set `f` wholly outside it,
the types extracted from `a | f` and `b | f` differ; the type of `a | f` is `a` and its
flag part is `f`. -/
theorem area_types_stay_distinct (a b f : Nat)
    (ha : a &&& SAMPLE_POLYAREA_TYPE_MASK = a) (hb : b &&& SAMPLE_POLYAREA_TYPE_MASK = b)
    (hab : a ≠ b) (hf : f < 2 ^ 32) (hf0 : f &&& SAMPLE_POLYAREA_TYPE_MASK = 0) :
    (a ||| f) &&& SAMPLE_POLYAREA_TYPE_MASK ≠ (b ||| f) &&& SAMPLE_POLYAREA_TYPE_MASK ∧
    (a ||| f) &&& SAMPLE_POLYAREA_TYPE_MASK = a ∧
    (a ||| f) &&& not32 SAMPLE_POLYAREA_TYPE_MASK = f := by
  refine ⟨?_, type_of_combine a f ha hf0, flags_of_combine a f ha hf hf0⟩
  rw [type_of_combine a f ha hf0, type_of_combine b f hb hf0]
  exact hab

theorem area_types_stay_distinct_witness :
    (SAMPLE_POLYAREA_TYPE_ROAD ||| SAMPLE_POLYAREA_FLAG_JUMP) &&& SAMPLE_POLYAREA_TYPE_MASK ≠
      (SAMPLE_POLYAREA_TYPE_GROUND ||| SAMPLE_POLYAREA_FLAG_JUMP) &&&
        SAMPLE_POLYAREA_TYPE_MASK ∧
    (SAMPLE_POLYAREA_TYPE_ROAD ||| SAMPLE_POLYAREA_FLAG_JUMP) &&& SAMPLE_POLYAREA_TYPE_MASK =
      SAMPLE_POLYAREA_TYPE_ROAD ∧
    (SAMPLE_POLYAREA_TYPE_ROAD ||| SAMPLE_POLYAREA_FLAG_JUMP) &&&
      not32 SAMPLE_POLYAREA_TYPE_MASK = SAMPLE_POLYAREA_FLAG_JUMP :=
  area_types_stay_distinct SAMPLE_POLYAREA_TYPE_ROAD SAMPLE_POLYAREA_TYPE_GROUND
    SAMPLE_POLYAREA_FLAG_JUMP (by decide) (by decide) (by decide) (by decide) (by decide)

/-- C3: the constants of `SamplePolyAreas` follow the 24/8 layout. The mask is `2^24 - 1`;
the four named types lie inside the mask and stay pairwise different after masking; the
three named flags have no bit inside the mask, are below `2^32`, non-zero and pairwise
disjoint; and for every named type `T` and every OR-combination `F` of named flags the
type part of `T | F` is `T` and its flag part is `F`. -/
theorem poly_area_constants_layout :
    SAMPLE_POLYAREA_TYPE_MASK = 2 ^ 24 - 1 ∧
    (∀ T ∈ namedAreaTypes, T &&& SAMPLE_POLYAREA_TYPE_MASK = T) ∧
    (namedAreaTypes.map (fun T => T &&& SAMPLE_POLYAREA_TYPE_MASK)).Nodup ∧
    (∀ F ∈ namedAreaFlags, F &&& SAMPLE_POLYAREA_TYPE_MASK = 0 ∧ F < 2 ^ 32 ∧ F ≠ 0) ∧
    namedAreaFlags.Pairwise (fun F G => F &&& G = 0) ∧
    (∀ T ∈ namedAreaTypes, ∀ fs : List Nat, (∀ F ∈ fs, F ∈ namedAreaFlags) →
      (T ||| orAll fs) &&& SAMPLE_POLYAREA_TYPE_MASK = T ∧
      (T ||| orAll fs) &&& not32 SAMPLE_POLYAREA_TYPE_MASK = orAll fs) := by
  have hT : ∀ T ∈ namedAreaTypes, T &&& SAMPLE_POLYAREA_TYPE_MASK = T := by decide
  refine ⟨by decide, hT, by decide, by decide, by decide, ?_⟩
  intro T hTm fs hfs
  have h := orAll_named_flags fs hfs
  exact ⟨type_of_combine T (orAll fs) (hT T hTm) h.2,
    flags_of_combine T (orAll fs) (hT T hTm) h.1 h.2⟩

theorem poly_area_constants_layout_witness :
    (SAMPLE_POLYAREA_TYPE_ROAD |||
        orAll [SAMPLE_POLYAREA_FLAG_DOOR, SAMPLE_POLYAREA_FLAG_DISABLED]) &&&
      SAMPLE_POLYAREA_TYPE_MASK = SAMPLE_POLYAREA_TYPE_ROAD ∧
    (SAMPLE_POLYAREA_TYPE_ROAD |||
        orAll [SAMPLE_POLYAREA_FLAG_DOOR, SAMPLE_POLYAREA_FLAG_DISABLED]) &&&
      not32 SAMPLE_POLYAREA_TYPE_MASK =
        orAll [SAMPLE_POLYAREA_FLAG_DOOR, SAMPLE_POLYAREA_FLAG_DISABLED] :=
  poly_area_constants_layout.2.2.2.2.2 SAMPLE_POLYAREA_TYPE_ROAD (by decide)
    [SAMPLE_POLYAREA_FLAG_DOOR, SAMPLE_POLYAREA_FLAG_DISABLED] (by decide)

/-! ## Query filter -/

/-- C6: `setIncludeFlags(m)` makes `getIncludeFlags()` return exactly `m` and leaves
`getExcludeFlags()` as it was; `setExcludeFlags(m)` makes `getExcludeFlags()` return `m`
and leaves `getIncludeFlags()` as it was; the getters leave the filter unchanged. -/
theorem filter_setters_getters (self : SampleQueryFilter) (m : Nat) :
    (getIncludeFlags (setIncludeFlags self m)).1 = m ∧
    (getExcludeFlags (setIncludeFlags self m)).1 = (getExcludeFlags self).1 ∧
    (getExcludeFlags (setExcludeFlags self m)).1 = m ∧
    (getIncludeFlags (setExcludeFlags self m)).1 = (getIncludeFlags self).1 ∧
    (getIncludeFlags self).2 = self ∧ (getExcludeFlags self).2 = self :=
  ⟨rfl, rfl, rfl, rfl, rfl, rfl⟩

/-- C4: `passFilter` admits a tag exactly when the type part of the tag has a bit in common
with the include mask and none in common with the exclude mask; bits of the tag outside the
type mask do not change the answer; and with include = GROUND | WATER, exclude = WATER the
filter admits GROUND and rejects WATER and ROAD. -/
theorem passFilter_rule (self : SampleQueryFilter) (tag : Nat) :
    (passFilter self tag = true ↔
      (∃ i, (typeOf tag).testBit i = true ∧ self.m_includeFlags.testBit i = true) ∧
      ¬ ∃ i, (typeOf tag).testBit i = true ∧ self.m_excludeFlags.testBit i = true) ∧
    (∀ other : Nat, typeOf other = typeOf tag → passFilter self other = passFilter self tag) ∧
    (∀ f : Nat, f &&& SAMPLE_POLYAREA_TYPE_MASK = 0 →
      passFilter self (tag ||| f) = passFilter self tag) ∧
    passFilter ⟨SAMPLE_POLYAREA_TYPE_GROUND ||| SAMPLE_POLYAREA_TYPE_WATER,
      SAMPLE_POLYAREA_TYPE_WATER⟩ SAMPLE_POLYAREA_TYPE_GROUND = true ∧
    passFilter ⟨SAMPLE_POLYAREA_TYPE_GROUND ||| SAMPLE_POLYAREA_TYPE_WATER,
      SAMPLE_POLYAREA_TYPE_WATER⟩ SAMPLE_POLYAREA_TYPE_WATER = false ∧
    passFilter ⟨SAMPLE_POLYAREA_TYPE_GROUND ||| SAMPLE_POLYAREA_TYPE_WATER,
      SAMPLE_POLYAREA_TYPE_WATER⟩ SAMPLE_POLYAREA_TYPE_ROAD = false := by
  refine ⟨?_, ?_, ?_, by decide, by decide, by decide⟩
  · rw [passFilter_eq_true_iff, and_ne_zero_iff_common_bit,
      ← and_ne_zero_iff_common_bit (typeOf tag) self.m_excludeFlags, not_not]
  · intro other h
    exact passFilter_congr_type self other tag h
  · intro f hf
    exact passFilter_congr_type self (tag ||| f) tag (typeOf_or_outside tag f hf)

theorem passFilter_rule_witness :
    SAMPLE_POLYAREA_FLAG_JUMP &&& SAMPLE_POLYAREA_TYPE_MASK = 0 ∧
    passFilter ⟨SAMPLE_POLYAREA_TYPE_GROUND ||| SAMPLE_POLYAREA_TYPE_WATER,
        SAMPLE_POLYAREA_TYPE_WATER⟩ (SAMPLE_POLYAREA_TYPE_GROUND ||| SAMPLE_POLYAREA_FLAG_JUMP) =
      passFilter ⟨SAMPLE_POLYAREA_TYPE_GROUND ||| SAMPLE_POLYAREA_TYPE_WATER,
        SAMPLE_POLYAREA_TYPE_WATER⟩ SAMPLE_POLYAREA_TYPE_GROUND :=
  ⟨by decide,
   (passFilter_rule ⟨SAMPLE_POLYAREA_TYPE_GROUND ||| SAMPLE_POLYAREA_TYPE_WATER,
      SAMPLE_POLYAREA_TYPE_WATER⟩ SAMPLE_POLYAREA_TYPE_GROUND).2.2.1
     SAMPLE_POLYAREA_FLAG_JUMP (by decide)⟩

/-! ## Tool-state registry -/

/-- C9: every tool kind of `SampleToolType` is at least `0` and below `MAX_TOOLS`, the kinds
are pairwise distinct, `MAX_TOOLS` is the number of kinds, and the kinds are exactly the
subscripts `0 .. MAX_TOOLS - 1` of the array `m_toolStates`, one slot per kind. -/
theorem tool_kinds_index_slots :
    (∀ k ∈ toolKinds, 0 ≤ k ∧ k < MAX_TOOLS) ∧
    toolKinds.Nodup ∧
    MAX_TOOLS = (toolKinds.length : Int) ∧
    toolKinds = (List.range MAX_TOOLS.toNat).map (fun j : Nat => (j : Int)) := by
  decide

/-- C7: for a kind `k` with `0 <= k < MAX_TOOLS`, after `setToolState(k, s)` the call
`getToolState(k)` returns `s`, `getToolState(j)` returns what it returned before for every
other kind `j`, the active tool and every member other than `m_toolStates` are unchanged;
`getToolState` leaves the object unchanged and returns the null pointer for an empty slot. -/
theorem toolState_set_then_get (self : Sample) (k : Int) (s : Ptr)
    (hk : 0 ≤ k ∧ k < MAX_TOOLS) :
    (getToolState (setToolState self k s) k).1 = s ∧
    (∀ j : Int, 0 ≤ j ∧ j < MAX_TOOLS → j ≠ k →
      (getToolState (setToolState self k s) j).1 = (getToolState self j).1) ∧
    (setToolState self k s).m_tool = self.m_tool ∧
    setToolState self k s =
      { self with m_toolStates := (setToolState self k s).m_toolStates } ∧
    (∀ j : Int, (getToolState self j).2 = self) ∧
    (∀ j : Int, 0 ≤ j ∧ j < MAX_TOOLS → self.m_toolStates j = none →
      (getToolState self j).1 = none) := by
  have hk1 : k ≠ -1 := by omega
  have hk2 : k ≠ MAX_TOOLS := ne_of_lt hk.2
  refine ⟨?_, ?_, ?_, ?_, fun _ => rfl, ?_⟩
  · simp [getToolState, setToolState, hk1, hk2]
  · intro j hj hjk
    have hj1 : j ≠ -1 := by omega
    have hj2 : j ≠ MAX_TOOLS := ne_of_lt hj.2
    simp [getToolState, setToolState, hk1, hk2, hj1, hj2, hjk]
  · simp [setToolState, hk1, hk2]
  · simp [setToolState, hk1, hk2]
  · intro j hj hnone
    have hj1 : j ≠ -1 := by omega
    have hj2 : j ≠ MAX_TOOLS := ne_of_lt hj.2
    simp [getToolState, hj1, hj2, hnone]

theorem toolState_set_then_get_witness :
    (0 ≤ TOOL_CROWD ∧ TOOL_CROWD < MAX_TOOLS) ∧
    (getToolState (setToolState emptySample TOOL_CROWD (some 7)) TOOL_CROWD).1 = some 7 ∧
    (getToolState (setToolState emptySample TOOL_CROWD (some 7)) TOOL_TILE_EDIT).1 = none :=
  ⟨by decide,
   (toolState_set_then_get emptySample TOOL_CROWD (some 7) (by decide)).1,
   (toolState_set_then_get emptySample TOOL_CROWD (some 7) (by decide)).2.1
     TOOL_TILE_EDIT (by decide) (by decide)⟩

/-- C10: one call of `updateToolStates` or `renderToolStates` calls the member function on
the occupant of each non-empty slot, and on nothing else: the kinds visited are the kinds
below `MAX_TOOLS` with a non-empty slot, in strictly ascending order (so each once), every
call is the requested one on the state held by its slot, and the functions are total. With
states only in the slots of TOOL_TILE_EDIT and TOOL_CROWD, `renderToolStates` makes exactly
two calls of `handleRender`, on the tile-edit state and then on the crowd state. -/
theorem toolStates_pass_visits_registered (self : Sample) (dt : CFloat) (a b : Nat) :
    (renderToolStates self).map Invocation.kind =
      toolKinds.filter (fun k => (self.m_toolStates k).isSome) ∧
    (updateToolStates self dt).map Invocation.kind =
      toolKinds.filter (fun k => (self.m_toolStates k).isSome) ∧
    ((renderToolStates self).map Invocation.kind).Pairwise (fun x y => x < y) ∧
    ((updateToolStates self dt).map Invocation.kind).Pairwise (fun x y => x < y) ∧
    (∀ k : Int, ((renderToolStates self).map Invocation.kind).count k =
      if 0 ≤ k ∧ k < MAX_TOOLS ∧ (self.m_toolStates k).isSome = true then 1 else 0) ∧
    (∀ k : Int, ((updateToolStates self dt).map Invocation.kind).count k =
      if 0 ≤ k ∧ k < MAX_TOOLS ∧ (self.m_toolStates k).isSome = true then 1 else 0) ∧
    (∀ inv ∈ renderToolStates self, inv.call = ToolStateCall.handleRender ∧
      self.m_toolStates inv.kind = some inv.state) ∧
    (∀ inv ∈ updateToolStates self dt, inv.call = ToolStateCall.handleUpdate dt ∧
      self.m_toolStates inv.kind = some inv.state) ∧
    renderToolStates
        (setToolState (setToolState emptySample TOOL_TILE_EDIT (some a)) TOOL_CROWD (some b)) =
      [⟨ToolStateCall.handleRender, TOOL_TILE_EDIT, a⟩,
       ⟨ToolStateCall.handleRender, TOOL_CROWD, b⟩] := by
  refine ⟨visitSlots_all_kinds self _, visitSlots_all_kinds self _, ?_, ?_,
    visitSlots_count self _, visitSlots_count self _, ?_, ?_, rfl⟩
  · rw [renderToolStates, visitSlots_all_kinds]
    exact occupied_kinds_ascending self.m_toolStates
  · rw [updateToolStates, visitSlots_all_kinds]
    exact occupied_kinds_ascending self.m_toolStates
  · intro inv h
    exact visitSlots_mem self _ _ _ inv h
  · intro inv h
    exact visitSlots_mem self _ _ _ inv h

theorem toolStates_pass_visits_registered_witness :
    (⟨ToolStateCall.handleRender, TOOL_CROWD, 5⟩ : Invocation) ∈
      renderToolStates
        (setToolState (setToolState emptySample TOOL_TILE_EDIT (some 4)) TOOL_CROWD (some 5)) ∧
    (setToolState (setToolState emptySample TOOL_TILE_EDIT (some 4)) TOOL_CROWD
      (some 5)).m_toolStates TOOL_CROWD = some 5 :=
  ⟨by decide,
   ((toolStates_pass_visits_registered
      (setToolState (setToolState emptySample TOOL_TILE_EDIT (some 4)) TOOL_CROWD (some 5))
      0 4 5).2.2.2.2.2.2.1 ⟨ToolStateCall.handleRender, TOOL_CROWD, 5⟩ (by decide)).2⟩

end RecastDemo
